import Mathlib

/-!
# Game of Life engine — shallow embedding

A shallow embedding of the cellular-automaton engine of `src/app/page.tsx`
(Conway's Game of Life on a bounded grid, TypeScript/React).  The engine part
consists of `createInitialGrid`, `getNeighbors`, `createNextGeneration`,
`getNextCellState`, `countLiveNeighbors`, `shouldSurvive`, `shouldBeBorn` and
`areGridsEqual`; the UI wiring around them is out of scope.

Modelling conventions:

* JavaScript numbers used as grid dimensions, coordinates and generation
  counters are modelled as `Int` (all values arising in the engine are
  integers; fractional numbers never occur).
* A TypeScript `Cell` holds a list `neighbors` of *references* to other cell
  objects of the same grid.  Cell references are modelled by the coordinates
  `(x, y)` of the referenced cell: in every grid the engine builds, the cell
  stored at row `y`, column `x` carries exactly those coordinates (proved
  below), so a reference is determined by its coordinates plus the cells
  array it points into.  Functions that dereference a neighbor
  (`countLiveNeighbors`) therefore take the cells array the cached
  references point into as an explicit argument.
* JavaScript exceptions are modelled with `Except String`:
  `new Array(n)` throws a `RangeError` for negative `n`, and reading a
  property of `undefined` (an out-of-range array element) throws a
  `TypeError`.
* `Except`-free functions of the source that would throw on a *malformed*
  grid (`areGridsEqual`, and a dereference of a dangling neighbor
  reference) are modelled total with the default state `dead`; every
  theorem below applies them only to well-formed grids, where the default
  is never reached.
-/

/-- The state of a cell: `'alive' | 'dead'` in `src/types/gameOfLife.ts`. -/
inductive CellState where
  | alive
  | dead
deriving DecidableEq, Repr

/-- A cell of the grid (`Cell` in `src/types/gameOfLife.ts`).  The
`neighbors` cache holds the coordinates of the referenced cells (see the
modelling conventions above). -/
structure Cell where
  state : CellState
  x : Int
  y : Int
  neighbors : List (Int × Int)
deriving DecidableEq, Repr

/-- A grid (`Grid` in `src/types/gameOfLife.ts`): a 2-D cells array indexed
`[y][x]`, dimensions, and a generation counter. -/
structure Grid where
  cells : List (List Cell)
  width : Int
  height : Int
  generation : Int
deriving DecidableEq, Repr

/-- JavaScript array indexing `l[i]` with a possibly negative index:
`undefined` (here `none`) for `i < 0` or `i ≥ l.length`. -/
def jsIdx (l : List α) (i : Int) : Option α :=
  if 0 ≤ i then l[i.toNat]? else none

/-- The cell stored at row `y`, column `x` of a cells array
(`cells[y][x]`, natural-number indices). -/
def cellAt (cells : List (List Cell)) (x y : Nat) : Option Cell :=
  cells[y]?.bind fun row => row[x]?

/-- The eight direction offsets of `getNeighbors` (`src/app/page.tsx`,
lines 38–42), in source order; each entry is `(dx, dy)`. -/
def directions : List (Int × Int) :=
  [(-1, -1), (-1, 0), (-1, 1), (0, -1), (0, 1), (1, -1), (1, 0), (1, 1)]

/-- The bounds check of `getNeighbors` (`src/app/page.tsx`, line 47):
`newX >= 0 && newX < width && newY >= 0 && newY < height`. -/
def boundsCheck (width height x y : Int) : Bool :=
  decide (0 ≤ x) && decide (x < width) && decide (0 ≤ y) && decide (y < height)

/-- `getNeighbors` (`src/app/page.tsx`, lines 36–53): for each of the eight
directions, if the displaced coordinate passes the bounds check, push the
referenced cell — modelled by its coordinates — onto the result. -/
def getNeighbors (width height x y : Int) : List (Int × Int) :=
  (directions.filter fun d => boundsCheck width height (x + d.1) (y + d.2)).map
    fun d => (x + d.1, y + d.2)

/-- One row of the initial all-dead cells array (`src/app/page.tsx`,
lines 11–16): `Array(width).fill(null).map((_, x) => ({state: 'dead', x, y,
neighbors: []}))`.  `Array(width)` throws for negative `width`; the error
case is handled by `mkDeadCells`. -/
def mkDeadRow (width : Int) (y : Nat) : List Cell :=
  (List.range width.toNat).map fun x : Nat =>
    { state := CellState.dead, x := (x : Int), y := (y : Int), neighbors := [] }

/-- The all-dead cells array of `createInitialGrid` (`src/app/page.tsx`,
lines 10–17).  `new Array(n)` throws `RangeError` for `n < 0`: directly for
the outer `Array(height)`, and inside the row constructor for
`Array(width)` — the latter only runs when there is at least one row. -/
def mkDeadCells (width height : Int) : Except String (List (List Cell)) :=
  if height < 0 then Except.error "RangeError: Invalid array length"
  else if width < 0 ∧ 0 < height then Except.error "RangeError: Invalid array length"
  else Except.ok ((List.range height.toNat).map fun y => mkDeadRow width y)

/-- One iteration of the alive-cell loop of `createInitialGrid`
(`src/app/page.tsx`, lines 20–24): `if (x < width && y < height)
cells[y][x].state = 'alive'`.  The guard does not test `0 ≤ x` or `0 ≤ y`,
so a negative coordinate passes it and the element access yields
`undefined`, making the `.state` assignment throw a `TypeError`. -/
def setAliveCell (width height : Int) (cells : List (List Cell)) (p : Int × Int) :
    Except String (List (List Cell)) :=
  if p.1 < width ∧ p.2 < height then
    match jsIdx cells p.2 with
    | none => Except.error "TypeError"
    | some row =>
      match jsIdx row p.1 with
      | none => Except.error "TypeError"
      | some c =>
        Except.ok (cells.set p.2.toNat (row.set p.1.toNat { c with state := CellState.alive }))
  else Except.ok cells

/-- The `for (const aliveCell of aliveCells)` loop of `createInitialGrid`
(`src/app/page.tsx`, lines 20–24), processed front to back. -/
def setAliveCells (width height : Int) (cells : List (List Cell)) :
    List (Int × Int) → Except String (List (List Cell))
  | [] => Except.ok cells
  | p :: rest =>
    match setAliveCell width height cells p with
    | Except.error e => Except.error e
    | Except.ok cells2 => setAliveCells width height cells2 rest

/-- The neighbor-assignment loop shared by `createInitialGrid` (lines 27–31)
and `createNextGeneration` (lines 64–68): every cell's `neighbors` is set to
`getNeighbors` of its own coordinates against the current cells array. -/
def assignNeighbors (width height : Int) (cells : List (List Cell)) : List (List Cell) :=
  cells.map fun row => row.map fun c =>
    { c with neighbors := getNeighbors width height c.x c.y }

/-- `createInitialGrid` (`src/app/page.tsx`, lines 8–34): build an all-dead
cells array, mark the listed coordinates alive, assign neighbor caches, and
return the grid with `generation = 0`.  An `aliveCells` entry is taken by
its `(x, y)` coordinates (its other fields are never read). -/
def createInitialGrid (width height : Int) (aliveCells : List (Int × Int)) :
    Except String Grid :=
  match mkDeadCells width height with
  | Except.error e => Except.error e
  | Except.ok base =>
    match setAliveCells width height base aliveCells with
    | Except.error e => Except.error e
    | Except.ok cells =>
      Except.ok { cells := assignNeighbors width height cells,
                  width := width, height := height, generation := 0 }

/-- The state found by dereferencing a cached neighbor reference `(x, y)`
against the cells array it points into.  In the source this is just
`neighbor.state`; the default `dead` is never reached for the in-bounds
references the engine builds. -/
def stateAt (cells : List (List Cell)) (x y : Int) : CellState :=
  match (jsIdx cells y).bind fun row => jsIdx row x with
  | none => CellState.dead
  | some c => c.state

/-- `countLiveNeighbors` (`src/app/page.tsx`, lines 83–85): the number of
cached neighbors whose state is alive, read through the references — i.e.
against the cells array the cache was built over, passed explicitly. -/
def countLiveNeighbors (cells : List (List Cell)) (c : Cell) : Nat :=
  (c.neighbors.filter fun p => stateAt cells p.1 p.2 == CellState.alive).length

/-- `shouldSurvive` (`src/app/page.tsx`, lines 87–90). -/
def shouldSurvive (cells : List (List Cell)) (c : Cell) : Bool :=
  c.state == CellState.alive &&
    (countLiveNeighbors cells c == 2 || countLiveNeighbors cells c == 3)

/-- `shouldBeBorn` (`src/app/page.tsx`, lines 92–95). -/
def shouldBeBorn (cells : List (List Cell)) (c : Cell) : Bool :=
  c.state == CellState.dead && countLiveNeighbors cells c == 3

/-- `getNextCellState` (`src/app/page.tsx`, lines 77–81). -/
def getNextCellState (cells : List (List Cell)) (c : Cell) : CellState :=
  if shouldSurvive cells c || shouldBeBorn cells c then CellState.alive else CellState.dead

/-- `createNextGeneration` (`src/app/page.tsx`, lines 55–75): map every cell
to a copy with the next state — computed from the *input* cell, whose
neighbor cache points into the input grid — then rebuild all neighbor
caches against the new cells array, and bump the generation. -/
def createNextGeneration (g : Grid) : Grid :=
  let newCells := g.cells.map fun row => row.map fun c =>
    { c with state := getNextCellState g.cells c }
  { g with cells := assignNeighbors g.width g.height newCells,
           generation := g.generation + 1 }

/-- The cell state read by `areGridsEqual`'s loop body
(`grid.cells[y][x].state`); total with default `dead`, reached only on
malformed grids, where the source would throw instead. -/
def stateAtN (cells : List (List Cell)) (x y : Nat) : CellState :=
  match cellAt cells x y with
  | some c => c.state
  | none => CellState.dead

/-- `areGridsEqual` (`src/app/page.tsx`, lines 97–109): false on differing
dimensions, otherwise a scan of all positions comparing states. -/
def areGridsEqual (g1 g2 : Grid) : Bool :=
  if g1.width ≠ g2.width ∨ g1.height ≠ g2.height then false
  else
    (List.range g1.height.toNat).all fun y =>
      (List.range g1.width.toNat).all fun x =>
        stateAtN g1.cells x y == stateAtN g2.cells x y

/-- Shape part of the grid invariant: `cells.length == height`, every row
of length `width`, and the cell stored at `[y][x]` carries coordinates
`(x, y)`. -/
def CellsShape (width height : Int) (cells : List (List Cell)) : Prop :=
  cells.length = height.toNat ∧
  (∀ row ∈ cells, row.length = width.toNat) ∧
  (∀ x y c, cellAt cells x y = some c → c.x = (x : Int) ∧ c.y = (y : Int))

/-- The full grid invariant: shape, plus every cell's neighbor cache equal
to the recomputed adjacency of its own coordinates in this grid (so the
cache never points into a previous grid snapshot). -/
def GridInvariant (g : Grid) : Prop :=
  CellsShape g.width g.height g.cells ∧
  ∀ x y c, cellAt g.cells x y = some c →
    c.neighbors = getNeighbors g.width g.height c.x c.y

/-- The dimension part of the grid invariant: row count and row lengths
match `height` and `width`. -/
def DimsOK (g : Grid) : Prop :=
  g.cells.length = g.height.toNat ∧ ∀ row ∈ g.cells, row.length = g.width.toNat

/-- Forget a cell's state (used to state that an operation — marking a
coordinate alive — changes states only, leaving array lengths and each
cell's `x`, `y` untouched). -/
def eraseState (c : Cell) : Cell := { c with state := CellState.dead }

/-- A grid with every cell's neighbor cache replaced according to `f`
(used to state that `areGridsEqual` is insensitive to the caches). -/
def mapNeighbors (f : Cell → List (Int × Int)) (g : Grid) : Grid :=
  { g with cells := g.cells.map fun row => row.map fun c => { c with neighbors := f c } }

/-- The single dead cell of the 1×1 grid used as a concrete sample input. -/
def deadCellA : Cell := { state := CellState.dead, x := 0, y := 0, neighbors := [] }

/-- The 1×1 grid `createInitialGrid 1 1 []` evaluates to, used as a concrete
sample input. -/
def oneByOne : Grid := { cells := [[deadCellA]], width := 1, height := 1, generation := 0 }

/-! ## Lemmas about `getNeighbors` -/

lemma boundsCheck_eq_true (w h x y : Int) :
    boundsCheck w h x y = true ↔ 0 ≤ x ∧ x < w ∧ 0 ≤ y ∧ y < h := by
  simp [boundsCheck, and_assoc]

lemma getNeighbors_eq (w h x y : Int) :
    getNeighbors w h x y =
      ([(x - 1, y - 1), (x - 1, y), (x - 1, y + 1), (x, y - 1),
        (x, y + 1), (x + 1, y - 1), (x + 1, y), (x + 1, y + 1)] :
        List (Int × Int)).filter fun q => boundsCheck w h q.1 q.2 := by
  have hcomp : (fun d : Int × Int => boundsCheck w h (x + d.1) (y + d.2)) =
      ((fun q : Int × Int => boundsCheck w h q.1 q.2) ∘ fun d : Int × Int => (x + d.1, y + d.2)) :=
    rfl
  rw [getNeighbors, hcomp, ← List.filter_map]
  congr 1
  simp only [directions, List.map_cons, List.map_nil, List.cons.injEq, Prod.mk.injEq,
    and_true, true_and, true_implies, add_zero]
  omega

lemma mem_getNeighbors (w h x y : Int) (p : Int × Int) :
    p ∈ getNeighbors w h x y ↔
      (0 ≤ p.1 ∧ p.1 < w ∧ 0 ≤ p.2 ∧ p.2 < h) ∧ p ≠ (x, y) ∧
        -1 ≤ p.1 - x ∧ p.1 - x ≤ 1 ∧ -1 ≤ p.2 - y ∧ p.2 - y ≤ 1 := by
  rw [getNeighbors_eq]
  simp only [List.mem_filter, List.mem_cons, List.not_mem_nil, or_false,
    boundsCheck_eq_true, Prod.ext_iff, ne_eq, not_and]
  obtain ⟨a, b⟩ := p
  simp only [Prod.mk.injEq]
  constructor
  · rintro ⟨hmem, hb⟩
    rcases hmem with ⟨h1, h2⟩ | ⟨h1, h2⟩ | ⟨h1, h2⟩ | ⟨h1, h2⟩ |
      ⟨h1, h2⟩ | ⟨h1, h2⟩ | ⟨h1, h2⟩ | ⟨h1, h2⟩ <;> subst h1 <;> subst h2 <;>
      exact ⟨hb, by omega, by omega, by omega, by omega, by omega⟩
  · rintro ⟨hb, hne, h1, h2, h3, h4⟩
    refine ⟨?_, hb⟩
    omega

lemma nodup_getNeighbors (w h x y : Int) : (getNeighbors w h x y).Nodup := by
  rw [getNeighbors_eq]
  apply List.Nodup.filter
  simp only [List.nodup_cons, List.mem_cons, List.not_mem_nil, or_false,
    Prod.mk.injEq, not_or, not_and, List.nodup_nil, and_true, true_implies,
    not_false_eq_true]
  omega

lemma length_getNeighbors_interior (w h x y : Int)
    (hx1 : 0 < x) (hx2 : x < w - 1) (hy1 : 0 < y) (hy2 : y < h - 1) :
    (getNeighbors w h x y).length = 8 := by
  rw [getNeighbors_eq, List.filter_eq_self.mpr]
  · rfl
  · intro a ha
    fin_cases ha <;> rw [boundsCheck_eq_true] <;>
      refine ⟨by omega, by omega, by omega, by omega⟩

lemma length_getNeighbors_edge (w h x y : Int)
    (hx1 : 0 ≤ x) (hx2 : x < w) (hy1 : 0 ≤ y) (hy2 : y < h)
    (hedge : x = 0 ∨ x = w - 1 ∨ y = 0 ∨ y = h - 1) :
    (getNeighbors w h x y).length < 8 := by
  rw [getNeighbors_eq]
  have key : ∀ q : Int × Int,
      q ∈ ([(x - 1, y - 1), (x - 1, y), (x - 1, y + 1), (x, y - 1),
        (x, y + 1), (x + 1, y - 1), (x + 1, y), (x + 1, y + 1)] : List (Int × Int)) →
      boundsCheck w h q.1 q.2 = false →
      (([(x - 1, y - 1), (x - 1, y), (x - 1, y + 1), (x, y - 1),
        (x, y + 1), (x + 1, y - 1), (x + 1, y), (x + 1, y + 1)] :
          List (Int × Int)).filter fun q => boundsCheck w h q.1 q.2).length < 8 :=
    fun q hq hfalse =>
      List.length_filter_lt_length_iff_exists.mpr ⟨q, hq, by simp [hfalse]⟩
  rcases hedge with he | he | he | he
  · exact key (x - 1, y) (by simp) (by simp [boundsCheck]; omega)
  · exact key (x + 1, y) (by simp) (by simp [boundsCheck]; omega)
  · exact key (x, y - 1) (by simp) (by simp [boundsCheck]; omega)
  · exact key (x, y + 1) (by simp) (by simp [boundsCheck]; omega)

/-! ## Indexing lemmas -/

lemma jsIdx_eq_some {α : Type} {l : List α} {i : Int} {a : α}
    (h : jsIdx l i = some a) : 0 ≤ i ∧ l[i.toNat]? = some a := by
  unfold jsIdx at h
  split at h
  · exact ⟨by assumption, h⟩
  · cases h

lemma cellAt_map (f : Cell → Cell) (cells : List (List Cell)) (x y : Nat) :
    cellAt (cells.map fun row => row.map f) x y = (cellAt cells x y).map f := by
  unfold cellAt
  rw [List.getElem?_map]
  cases cells[y]? with
  | none => rfl
  | some row => simp [List.getElem?_map]

lemma set_self_of_getElem {α : Type} (l : List α) (n : Nat) (a : α)
    (hsome : l[n]? = some a) : l.set n a = l := by
  apply List.ext_getElem?
  intro i
  rw [List.getElem?_set]
  split
  · rename_i hin
    subst hin
    obtain ⟨hlt, heq⟩ := List.getElem?_eq_some.mp hsome
    simp [hlt, List.getElem?_eq_getElem hlt, heq]
  · rfl

/-! ## The alive-cell loop only changes cell states

Marking a coordinate alive replaces one cell by a copy with a different
`state`; everything else (array lengths, each cell's `x`, `y`) is
untouched.  This is captured by erasing states and showing the erased
arrays are equal. -/

lemma setAliveCell_skeleton {w h : Int} {cells cells2 : List (List Cell)} {p : Int × Int}
    (hok : setAliveCell w h cells p = Except.ok cells2) :
    cells2.map (List.map eraseState) = cells.map (List.map eraseState) := by
  unfold setAliveCell at hok
  split at hok
  case isFalse => cases hok; rfl
  case isTrue =>
    split at hok
    · cases hok
    · rename_i row hrow
      split at hok
      · cases hok
      · rename_i c hcol
        cases hok
        obtain ⟨hy0, hyget⟩ := jsIdx_eq_some hrow
        obtain ⟨hx0, hxget⟩ := jsIdx_eq_some hcol
        have h1 : eraseState { c with state := CellState.alive } = eraseState c := rfl
        rw [List.map_set, List.map_set, h1,
          set_self_of_getElem (row.map eraseState) p.1.toNat (eraseState c)
            (by rw [List.getElem?_map, hxget]; rfl)]
        exact set_self_of_getElem _ _ _ (by rw [List.getElem?_map, hyget]; rfl)

lemma setAliveCells_skeleton {w h : Int} (coords : List (Int × Int)) :
    ∀ {cells cells2 : List (List Cell)},
      setAliveCells w h cells coords = Except.ok cells2 →
      cells2.map (List.map eraseState) = cells.map (List.map eraseState) := by
  induction coords with
  | nil =>
    intro cells cells2 hok
    cases hok
    rfl
  | cons p rest ih =>
    intro cells cells2 hok
    unfold setAliveCells at hok
    cases hmid : setAliveCell w h cells p with
    | error e => rw [hmid] at hok; cases hok
    | ok cellsMid =>
      rw [hmid] at hok
      exact (ih hok).trans (setAliveCell_skeleton hmid)

lemma cellsShape_of_skeleton {w h : Int} {cells cells2 : List (List Cell)}
    (hsk : cells2.map (List.map eraseState) = cells.map (List.map eraseState))
    (hs : CellsShape w h cells) : CellsShape w h cells2 := by
  obtain ⟨hlen, hrows, hcoords⟩ := hs
  have hlen2 : cells2.length = cells.length := by
    have hl := congrArg List.length hsk
    simpa using hl
  refine ⟨by rw [hlen2, hlen], ?_, ?_⟩
  · intro row hrow
    have hmem : row.map eraseState ∈ cells.map (List.map eraseState) := by
      rw [← hsk]
      exact List.mem_map_of_mem _ hrow
    obtain ⟨row0, hrow0, heq⟩ := List.mem_map.mp hmem
    have hrl : row.length = row0.length := by
      have hl := congrArg List.length heq
      simpa using hl.symm
    rw [hrl]
    exact hrows row0 hrow0
  · intro x y c hc
    have h1 : cellAt (cells2.map (List.map eraseState)) x y =
        (cellAt cells2 x y).map eraseState := cellAt_map eraseState cells2 x y
    have h2 : cellAt (cells.map (List.map eraseState)) x y =
        (cellAt cells x y).map eraseState := cellAt_map eraseState cells x y
    have key : (cellAt cells2 x y).map eraseState = (cellAt cells x y).map eraseState := by
      rw [← h1, ← h2, hsk]
    rw [hc] at key
    cases hcc : cellAt cells x y with
    | none => rw [hcc] at key; cases key
    | some c0 =>
      rw [hcc] at key
      have hec : eraseState c = eraseState c0 := by
        injection key
      obtain ⟨hx, hy⟩ := hcoords x y c0 hcc
      have hxx : c.x = c0.x := by
        have hx1 := congrArg Cell.x hec
        simpa [eraseState] using hx1
      have hyy : c.y = c0.y := by
        have hy1 := congrArg Cell.y hec
        simpa [eraseState] using hy1
      exact ⟨hxx.trans hx, hyy.trans hy⟩

/-! ## Characterization of `createInitialGrid` -/

lemma mkDeadCells_ok {w h : Int} {cells : List (List Cell)}
    (hok : mkDeadCells w h = Except.ok cells) :
    cells = (List.range h.toNat).map fun i => mkDeadRow w i := by
  unfold mkDeadCells at hok
  split at hok
  · cases hok
  · split at hok
    · cases hok
    · cases hok
      rfl

lemma mkDeadCells_error_iff (w h : Int) :
    (∃ e, mkDeadCells w h = Except.error e) ↔ h < 0 ∨ (w < 0 ∧ 0 < h) := by
  unfold mkDeadCells
  split
  · rename_i hh
    simp only [iff_true_intro (Or.inl hh)]
    exact ⟨fun _ => trivial, fun _ => ⟨_, rfl⟩⟩
  · rename_i hh
    split
    · rename_i hw
      constructor
      · intro _
        exact Or.inr hw
      · intro _
        exact ⟨_, rfl⟩
    · rename_i hw
      constructor
      · rintro ⟨e, he⟩
        cases he
      · intro hcontra
        omega

lemma mkDeadRow_getElem (w : Int) (i x : Nat) :
    (mkDeadRow w i)[x]? =
      if x < w.toNat then
        some { state := CellState.dead, x := (x : Int), y := (i : Int), neighbors := [] }
      else none := by
  unfold mkDeadRow
  by_cases hx : x < w.toNat
  · rw [List.getElem?_map, List.getElem?_range hx, if_pos hx]
    rfl
  · rw [List.getElem?_map, List.getElem?_eq_none_iff.mpr (by simpa using hx), if_neg hx]
    rfl

lemma mkDead_getElem (w h : Int) (y : Nat) :
    ((List.range h.toNat).map fun i => mkDeadRow w i)[y]? =
      if y < h.toNat then some (mkDeadRow w y) else none := by
  by_cases hy : y < h.toNat
  · rw [List.getElem?_map, List.getElem?_range hy, if_pos hy]
    rfl
  · rw [List.getElem?_map, List.getElem?_eq_none_iff.mpr (by simpa using hy), if_neg hy]
    rfl

lemma cellAt_mkDead (w h : Int) (x y : Nat) :
    cellAt ((List.range h.toNat).map fun i => mkDeadRow w i) x y =
      if x < w.toNat ∧ y < h.toNat then
        some { state := CellState.dead, x := (x : Int), y := (y : Int), neighbors := [] }
      else none := by
  unfold cellAt
  rw [mkDead_getElem]
  by_cases hy : y < h.toNat
  · rw [if_pos hy]
    show (mkDeadRow w y)[x]? = _
    rw [mkDeadRow_getElem]
    by_cases hx : x < w.toNat
    · rw [if_pos hx, if_pos ⟨hx, hy⟩]
    · rw [if_neg hx, if_neg (by tauto)]
  · rw [if_neg hy]
    show none = _
    rw [if_neg (by tauto)]

lemma cellsShape_mkDead (w h : Int) :
    CellsShape w h ((List.range h.toNat).map fun i => mkDeadRow w i) := by
  refine ⟨by simp, ?_, ?_⟩
  · intro row hrow
    obtain ⟨i, _, rfl⟩ := List.mem_map.mp hrow
    unfold mkDeadRow
    rw [List.length_map, List.length_range]
  · intro x y c hc
    rw [cellAt_mkDead] at hc
    split at hc
    · cases hc
      exact ⟨rfl, rfl⟩
    · cases hc

lemma cellAt_assignNeighbors (w h : Int) (cells : List (List Cell)) (x y : Nat) :
    cellAt (assignNeighbors w h cells) x y =
      (cellAt cells x y).map fun c => { c with neighbors := getNeighbors w h c.x c.y } :=
  cellAt_map _ cells x y

lemma cellsShape_assignNeighbors {w h : Int} {cells : List (List Cell)}
    (hs : CellsShape w h cells) :
    CellsShape w h (assignNeighbors w h cells) ∧
      ∀ x y c, cellAt (assignNeighbors w h cells) x y = some c →
        c.neighbors = getNeighbors w h c.x c.y := by
  obtain ⟨hlen, hrows, hcoords⟩ := hs
  constructor
  · refine ⟨by simpa [assignNeighbors] using hlen, ?_, ?_⟩
    · intro row hrow
      obtain ⟨row0, hrow0, rfl⟩ := List.mem_map.mp hrow
      simpa using hrows row0 hrow0
    · intro x y c hc
      rw [cellAt_assignNeighbors] at hc
      cases hcc : cellAt cells x y with
      | none => rw [hcc] at hc; cases hc
      | some c0 =>
        rw [hcc] at hc
        cases hc
        exact hcoords x y c0 hcc
  · intro x y c hc
    rw [cellAt_assignNeighbors] at hc
    cases hcc : cellAt cells x y with
    | none => rw [hcc] at hc; cases hc
    | some c0 =>
      rw [hcc] at hc
      cases hc
      rfl

lemma createInitialGrid_ok {w h : Int} {coords : List (Int × Int)} {g : Grid}
    (hok : createInitialGrid w h coords = Except.ok g) :
    g.width = w ∧ g.height = h ∧ g.generation = 0 ∧ GridInvariant g := by
  unfold createInitialGrid at hok
  split at hok
  · cases hok
  · rename_i base hbase
    split at hok
    · cases hok
    · rename_i cells hset
      cases hok
      have hbshape : CellsShape w h base := by
        rw [mkDeadCells_ok hbase]
        exact cellsShape_mkDead w h
      have hcshape : CellsShape w h cells :=
        cellsShape_of_skeleton (setAliveCells_skeleton coords hset) hbshape
      obtain ⟨hshape2, hnb⟩ := cellsShape_assignNeighbors hcshape
      exact ⟨rfl, rfl, rfl, hshape2, hnb⟩

/-! ## Lemmas about `createNextGeneration` -/

lemma cellAt_step (g : Grid) (x y : Nat) :
    cellAt (createNextGeneration g).cells x y =
      (cellAt g.cells x y).map fun c =>
        { c with state := getNextCellState g.cells c,
                 neighbors := getNeighbors g.width g.height c.x c.y } := by
  show cellAt (assignNeighbors g.width g.height (g.cells.map fun row => row.map fun c =>
      { c with state := getNextCellState g.cells c })) x y = _
  rw [cellAt_assignNeighbors, cellAt_map]
  cases cellAt g.cells x y with
  | none => rfl
  | some c => rfl

lemma step_width (g : Grid) : (createNextGeneration g).width = g.width := rfl

lemma step_height (g : Grid) : (createNextGeneration g).height = g.height := rfl

lemma step_generation (g : Grid) : (createNextGeneration g).generation = g.generation + 1 := rfl

lemma step_invariant {g : Grid} (hinv : GridInvariant g) :
    GridInvariant (createNextGeneration g) := by
  obtain ⟨⟨hlen, hrows, hcoords⟩, _⟩ := hinv
  refine ⟨⟨?_, ?_, ?_⟩, ?_⟩
  · show (assignNeighbors g.width g.height (g.cells.map fun row => row.map fun c =>
      { c with state := getNextCellState g.cells c })).length = g.height.toNat
    unfold assignNeighbors
    rw [List.length_map, List.length_map]
    exact hlen
  · intro row hrow
    revert hrow
    show row ∈ assignNeighbors g.width g.height (g.cells.map fun r => r.map fun c =>
        { c with state := getNextCellState g.cells c }) → row.length = g.width.toNat
    intro hrow
    unfold assignNeighbors at hrow
    obtain ⟨row1, hrow1, rfl⟩ := List.mem_map.mp hrow
    obtain ⟨row0, hrow0, rfl⟩ := List.mem_map.mp hrow1
    rw [List.length_map, List.length_map]
    exact hrows row0 hrow0
  · intro x y c hc
    rw [cellAt_step] at hc
    cases hcc : cellAt g.cells x y with
    | none => rw [hcc] at hc; cases hc
    | some c0 =>
      rw [hcc] at hc
      cases hc
      exact hcoords x y c0 hcc
  · intro x y c hc
    rw [cellAt_step] at hc
    cases hcc : cellAt g.cells x y with
    | none => rw [hcc] at hc; cases hc
    | some c0 =>
      rw [hcc] at hc
      cases hc
      rfl

/-! ## Dead grids stay dead -/

lemma stateAt_of_all_dead {cells : List (List Cell)}
    (hd : ∀ x y c, cellAt cells x y = some c → c.state = CellState.dead)
    (a b : Int) : stateAt cells a b = CellState.dead := by
  unfold stateAt
  cases hrow : jsIdx cells b with
  | none => rfl
  | some row =>
    show (match jsIdx row a with
      | none => CellState.dead
      | some c => c.state) = CellState.dead
    cases hcol : jsIdx row a with
    | none => rfl
    | some c =>
      obtain ⟨hb0, hbget⟩ := jsIdx_eq_some hrow
      obtain ⟨ha0, haget⟩ := jsIdx_eq_some hcol
      exact hd a.toNat b.toNat c (by unfold cellAt; rw [hbget]; exact haget)

lemma countLiveNeighbors_of_all_dead {cells : List (List Cell)}
    (hd : ∀ x y c, cellAt cells x y = some c → c.state = CellState.dead)
    (c : Cell) : countLiveNeighbors cells c = 0 := by
  unfold countLiveNeighbors
  rw [List.filter_eq_nil_iff.mpr]
  · rfl
  · intro p _
    rw [stateAt_of_all_dead hd p.1 p.2]
    simp

lemma getNextCellState_of_all_dead {cells : List (List Cell)}
    (hd : ∀ x y c, cellAt cells x y = some c → c.state = CellState.dead)
    (c : Cell) (hc : c.state = CellState.dead) :
    getNextCellState cells c = CellState.dead := by
  unfold getNextCellState shouldSurvive shouldBeBorn
  rw [countLiveNeighbors_of_all_dead hd, hc]
  rfl

lemma step_all_dead {g : Grid}
    (hd : ∀ x y c, cellAt g.cells x y = some c → c.state = CellState.dead) :
    ∀ x y c, cellAt (createNextGeneration g).cells x y = some c →
      c.state = CellState.dead := by
  intro x y c hc
  rw [cellAt_step] at hc
  cases hcc : cellAt g.cells x y with
  | none => rw [hcc] at hc; cases hc
  | some c0 =>
    rw [hcc] at hc
    cases hc
    exact getNextCellState_of_all_dead hd c0 (hd x y c0 hcc)

lemma createInitialGrid_nil_dead {w h : Int} {g : Grid}
    (hok : createInitialGrid w h [] = Except.ok g) :
    ∀ x y c, cellAt g.cells x y = some c → c.state = CellState.dead := by
  unfold createInitialGrid at hok
  split at hok
  · cases hok
  · rename_i base hbase
    split at hok
    · cases hok
    · rename_i cells hset
      cases hok
      cases hset
      intro x y c hc
      rw [cellAt_assignNeighbors] at hc
      cases hcc : cellAt base x y with
      | none => rw [hcc] at hc; cases hc
      | some c0 =>
        rw [hcc] at hc
        cases hc
        show c0.state = CellState.dead
        rw [mkDeadCells_ok hbase, cellAt_mkDead] at hcc
        split at hcc
        · cases hcc
          rfl
        · cases hcc

/-! ## Lemmas about `areGridsEqual` -/

lemma stateAtN_eq_state {cells : List (List Cell)} {x y : Nat} {c : Cell}
    (hc : cellAt cells x y = some c) : stateAtN cells x y = c.state := by
  unfold stateAtN
  rw [hc]

lemma cellAt_of_dims {g : Grid} (hd : DimsOK g) {x y : Nat}
    (hx : x < g.width.toNat) (hy : y < g.height.toNat) :
    ∃ c, cellAt g.cells x y = some c := by
  obtain ⟨hlen, hrows⟩ := hd
  have hy2 : y < g.cells.length := by omega
  obtain ⟨row, hrow⟩ : ∃ row, g.cells[y]? = some row :=
    ⟨g.cells[y], List.getElem?_eq_getElem hy2⟩
  have hrowmem : row ∈ g.cells := List.getElem?_mem hrow
  have hx2 : x < row.length := by rw [hrows row hrowmem]; omega
  obtain ⟨c, hc⟩ : ∃ c, row[x]? = some c := ⟨row.get ⟨x, hx2⟩, List.getElem?_eq_getElem hx2⟩
  exact ⟨c, by unfold cellAt; rw [hrow]; exact hc⟩

lemma cellAt_bounds {g : Grid} (hd : DimsOK g) {x y : Nat} {c : Cell}
    (hc : cellAt g.cells x y = some c) :
    x < g.width.toNat ∧ y < g.height.toNat := by
  obtain ⟨hlen, hrows⟩ := hd
  unfold cellAt at hc
  cases hrow : g.cells[y]? with
  | none => rw [hrow] at hc; cases hc
  | some row =>
    rw [hrow] at hc
    have hy2 : y < g.cells.length := by
      have hs := List.getElem?_eq_some.mp hrow
      exact hs.1
    have hx2 : x < row.length := by
      have hs := List.getElem?_eq_some.mp hc
      exact hs.1
    have hrowmem : row ∈ g.cells := List.getElem?_mem hrow
    rw [hrows row hrowmem] at hx2
    omega

lemma areGridsEqual_iff (g1 g2 : Grid) :
    areGridsEqual g1 g2 = true ↔
      g1.width = g2.width ∧ g1.height = g2.height ∧
        ∀ y < g1.height.toNat, ∀ x < g1.width.toNat,
          stateAtN g1.cells x y = stateAtN g2.cells x y := by
  unfold areGridsEqual
  split
  · rename_i hd
    constructor
    · intro hfalse
      cases hfalse
    · rintro ⟨hw, hh, -⟩
      rcases hd with hne | hne
      · exact absurd hw hne
      · exact absurd hh hne
  · rename_i hd
    push_neg at hd
    simp only [List.all_eq_true, List.mem_range, beq_iff_eq]
    exact ⟨fun hall => ⟨hd.1, hd.2, hall⟩, fun hp => hp.2.2⟩

lemma stateAtN_mapNeighbors (f : Cell → List (Int × Int))
    (cells : List (List Cell)) (x y : Nat) :
    stateAtN (cells.map fun row => row.map fun c => { c with neighbors := f c }) x y =
      stateAtN cells x y := by
  unfold stateAtN
  rw [cellAt_map]
  cases cellAt cells x y <;> rfl

lemma areGridsEqual_mapNeighbors (f : Cell → List (Int × Int)) (g1 g2 : Grid) :
    areGridsEqual (mapNeighbors f g1) (mapNeighbors f g2) = areGridsEqual g1 g2 := by
  unfold areGridsEqual mapNeighbors
  simp only [stateAtN_mapNeighbors]

/-! ## The alive-cell loop drops coordinates failing the upper-bound test -/

lemma setAliveCell_skip {w h : Int} {cells : List (List Cell)} {p : Int × Int}
    (hp : ¬(p.1 < w ∧ p.2 < h)) : setAliveCell w h cells p = Except.ok cells := by
  unfold setAliveCell
  rw [if_neg hp]

lemma setAliveCells_filter {w h : Int} (coords : List (Int × Int)) :
    ∀ cells, setAliveCells w h cells coords =
      setAliveCells w h cells
        (coords.filter fun p => decide (p.1 < w) && decide (p.2 < h)) := by
  induction coords with
  | nil => intro cells; rfl
  | cons p rest ih =>
    intro cells
    by_cases hp : p.1 < w ∧ p.2 < h
    · rw [List.filter_cons_of_pos (by simpa using hp)]
      show (match setAliveCell w h cells p with
          | Except.error e => Except.error e
          | Except.ok cells2 => setAliveCells w h cells2 rest) =
        (match setAliveCell w h cells p with
          | Except.error e => Except.error e
          | Except.ok cells2 => setAliveCells w h cells2
              (rest.filter fun p => decide (p.1 < w) && decide (p.2 < h)))
      cases setAliveCell w h cells p with
      | error e => rfl
      | ok cells2 => exact ih cells2
    · rw [List.filter_cons_of_neg (by simpa using hp)]
      show (match setAliveCell w h cells p with
          | Except.error e => Except.error e
          | Except.ok cells2 => setAliveCells w h cells2 rest) =
        setAliveCells w h cells
          (rest.filter fun p => decide (p.1 < w) && decide (p.2 < h))
      rw [setAliveCell_skip hp]
      exact ih cells

lemma createInitialGrid_filter (w h : Int) (coords : List (Int × Int)) :
    createInitialGrid w h coords =
      createInitialGrid w h (coords.filter fun p => decide (p.1 < w) && decide (p.2 < h)) := by
  unfold createInitialGrid
  cases mkDeadCells w h with
  | error e => rfl
  | ok base =>
    have hF := congrArg
      (fun r : Except String (List (List Cell)) =>
        match r with
        | Except.error e => (Except.error e : Except String Grid)
        | Except.ok cells =>
          Except.ok { cells := assignNeighbors w h cells, width := w, height := h,
                      generation := 0 })
      (@setAliveCells_filter w h coords base)
    exact hF

/-! ## The cell transition rule as a proposition -/

lemma getNextCellState_alive_iff (cells : List (List Cell)) (c : Cell) :
    getNextCellState cells c = CellState.alive ↔
      (c.state = CellState.alive ∧
        (countLiveNeighbors cells c = 2 ∨ countLiveNeighbors cells c = 3)) ∨
      (c.state = CellState.dead ∧ countLiveNeighbors cells c = 3) := by
  unfold getNextCellState shouldSurvive shouldBeBorn
  split
  · rename_i hcond
    simp only [Bool.or_eq_true, Bool.and_eq_true, beq_iff_eq] at hcond
    exact iff_of_true rfl hcond
  · rename_i hcond
    simp only [Bool.or_eq_true, Bool.and_eq_true, beq_iff_eq] at hcond
    exact iff_of_false (by simp) hcond

/-! # Claims -/

/-- C1.  For every grid, `createNextGeneration` computes each cell's
next state independently from the pre-step grid only: the cell stored at
`(x, y)` of the result is Alive iff the input cell there was Alive with a
live-neighbor count of 2 or 3 (survive), or Dead with a live-neighbor
count of exactly 3 (birth); in every other case it is Dead.  The
live-neighbor count is the number of the input cell's cached neighbors
whose state is Alive in the input grid (`countLiveNeighbors g.cells c`). -/
theorem claim1_step_rule (g : Grid) (x y : Nat) (c : Cell)
    (hc : cellAt g.cells x y = some c) :
    ∃ c2, cellAt (createNextGeneration g).cells x y = some c2 ∧
      (c2.state = CellState.alive ↔
        (c.state = CellState.alive ∧
          (countLiveNeighbors g.cells c = 2 ∨ countLiveNeighbors g.cells c = 3)) ∨
        (c.state = CellState.dead ∧ countLiveNeighbors g.cells c = 3)) := by
  refine ⟨_, by rw [cellAt_step, hc]; rfl, ?_⟩
  exact getNextCellState_alive_iff g.cells c

/-- Witness for C1 at the 1×1 all-dead grid and its only cell. -/
theorem claim1_step_rule_witness :
    ∃ c2, cellAt (createNextGeneration oneByOne).cells 0 0 = some c2 ∧
      (c2.state = CellState.alive ↔
        (deadCellA.state = CellState.alive ∧
          (countLiveNeighbors oneByOne.cells deadCellA = 2 ∨
            countLiveNeighbors oneByOne.cells deadCellA = 3)) ∨
        (deadCellA.state = CellState.dead ∧
          countLiveNeighbors oneByOne.cells deadCellA = 3)) :=
  claim1_step_rule oneByOne 0 0 deadCellA rfl

/-- C2, counterexample.  The claim says every coordinate outside
`[0,width)×[0,height)` is silently ignored; but a *negative* coordinate
passes the source's upper-bound-only guard and the assignment
`cells[y][x].state = 'alive'` throws, so `createInitialGrid 3 3 [(-1, 0)]`
errors instead of producing the same grid as `createInitialGrid 3 3 []`. -/
theorem claim2_counterexample :
    createInitialGrid 3 3 [((-1 : Int), (0 : Int))] = Except.error "TypeError" ∧
    (createInitialGrid 3 3 ([] : List (Int × Int))).isOk = true := by
  exact ⟨rfl, rfl⟩

/-- C2, amended.  `createInitialGrid` silently drops exactly the
coordinates failing the source's upper-bound test (`x < width && y <
height`): the result is the same grid as with only those coordinates kept.
In particular, when every supplied coordinate is non-negative, out-of-range
coordinates (`x ≥ width` or `y ≥ height`) are silently ignored and the
result equals the one for the fully-in-range sublist; but a negative
coordinate with `x < width` and `y < height` makes construction error
instead of being ignored (see the counterexample). -/
theorem claim2_amended_oob_dropped (w h : Int) (coords : List (Int × Int)) :
    createInitialGrid w h coords =
      createInitialGrid w h (coords.filter fun p => decide (p.1 < w) && decide (p.2 < h)) ∧
    ((∀ p ∈ coords, 0 ≤ p.1 ∧ 0 ≤ p.2) →
      createInitialGrid w h coords =
        createInitialGrid w h (coords.filter fun p =>
          decide (0 ≤ p.1) && decide (p.1 < w) && decide (0 ≤ p.2) && decide (p.2 < h))) := by
  refine ⟨createInitialGrid_filter w h coords, ?_⟩
  intro hnn
  rw [createInitialGrid_filter w h coords]
  congr 1
  apply List.filter_congr
  intro p hp
  obtain ⟨h1, h2⟩ := hnn p hp
  simp [h1, h2]

/-- Witness for C2 amended: a list with one out-of-range and one
in-range non-negative coordinate on a 3×3 grid. -/
theorem claim2_amended_witness :
    (∀ p ∈ ([(5, 1), (1, 1)] : List (Int × Int)), 0 ≤ p.1 ∧ 0 ≤ p.2) ∧
    createInitialGrid 3 3 ([(5, 1), (1, 1)] : List (Int × Int)) =
      createInitialGrid 3 3 (([(5, 1), (1, 1)] : List (Int × Int)).filter fun p =>
        decide (0 ≤ p.1) && decide (p.1 < 3) && decide (0 ≤ p.2) && decide (p.2 < 3)) :=
  ⟨by decide, (claim2_amended_oob_dropped 3 3 _).2 (by decide)⟩

/-- C3, counterexample.  The claim says `createInitialGrid` fails fast
on `width ≤ 0` or `height ≤ 0`; but with `width = 0`, `height = 5` the
source happily returns a degenerate grid of five empty rows. -/
theorem claim3_counterexample :
    createInitialGrid 0 5 ([] : List (Int × Int)) =
      Except.ok { cells := [[], [], [], [], []], width := 0, height := 5, generation := 0 } := by
  rfl

/-- C3, amended.  `createInitialGrid` performs no dimension validation
of its own: with no alive coordinates it errors exactly when a negative
array length reaches a JavaScript `Array` constructor — `height < 0`, or
`width < 0` while `height > 0` — and for `width = 0` or `height = 0` (and
even `width < 0` with `height = 0`) it returns a degenerate grid with
`generation = 0` instead of failing fast. -/
theorem claim3_amended_no_fail_fast (w h : Int) :
    (∃ e, createInitialGrid w h [] = Except.error e) ↔ h < 0 ∨ (w < 0 ∧ 0 < h) := by
  unfold createInitialGrid
  cases hmk : mkDeadCells w h with
  | error e =>
    constructor
    · intro _
      exact (mkDeadCells_error_iff w h).mp ⟨e, hmk⟩
    · intro _
      exact ⟨e, rfl⟩
  | ok base =>
    constructor
    · rintro ⟨e2, he2⟩
      cases he2
    · intro hcond
      obtain ⟨e, he⟩ := (mkDeadCells_error_iff w h).mpr hcond
      rw [hmk] at he
      cases he

/-- C6.  `createNextGeneration` increments the generation counter by
exactly 1, `createInitialGrid` starts it at 0, and stepping never
decreases it. -/
theorem claim6_generation_counter (g : Grid) (w h : Int) (coords : List (Int × Int))
    (g0 : Grid) (hok : createInitialGrid w h coords = Except.ok g0) :
    (createNextGeneration g).generation = g.generation + 1 ∧
    g0.generation = 0 ∧
    g.generation ≤ (createNextGeneration g).generation := by
  refine ⟨rfl, (createInitialGrid_ok hok).2.2.1, ?_⟩
  rw [step_generation]
  omega

/-- Witness for C6 at the 1×1 grid built by `createInitialGrid 1 1 []`. -/
theorem claim6_generation_counter_witness :
    (createNextGeneration oneByOne).generation = oneByOne.generation + 1 ∧
    oneByOne.generation = 0 ∧
    oneByOne.generation ≤ (createNextGeneration oneByOne).generation :=
  claim6_generation_counter oneByOne 1 1 [] oneByOne rfl

/-- C8.  The 2×2 block at (1,1)–(2,2) in a 5×5 grid is a fixed point of
`createNextGeneration` up to `areGridsEqual`. -/
theorem claim8_block_fixed_point :
    (createInitialGrid 5 5 [(1, 1), (1, 2), (2, 1), (2, 2)]).map
      (fun g => areGridsEqual g (createNextGeneration g)) = Except.ok true := by
  rfl

/-- C9.  The blinker at (1,2),(2,2),(3,2) in a 5×5 grid oscillates with
period 2: two steps return to the original state layout, while one step
does not. -/
theorem claim9_blinker_period_two :
    (createInitialGrid 5 5 [(1, 2), (2, 2), (3, 2)]).map
      (fun g => (areGridsEqual (createNextGeneration (createNextGeneration g)) g,
                 areGridsEqual g (createNextGeneration g))) = Except.ok (true, false) := by
  rfl

lemma stateAtN_dead_of_all_dead {cells : List (List Cell)}
    (hd : ∀ x y c, cellAt cells x y = some c → c.state = CellState.dead)
    (x y : Nat) : stateAtN cells x y = CellState.dead := by
  unfold stateAtN
  cases hcc : cellAt cells x y with
  | none => rfl
  | some c => exact hd x y c hcc

lemma neighbors_in_grid {g : Grid} (hinv : GridInvariant g) :
    ∀ x y c p, cellAt g.cells x y = some c → p ∈ c.neighbors →
      ∃ c2, cellAt g.cells p.1.toNat p.2.toNat = some c2 ∧ 0 ≤ p.1 ∧ 0 ≤ p.2 ∧
        c2.x = p.1 ∧ c2.y = p.2 := by
  obtain ⟨⟨hlen, hrows, hcoords⟩, hnb⟩ := hinv
  intro x y c p hc hp
  rw [hnb x y c hc] at hp
  obtain ⟨⟨h1, h2, h3, h4⟩, -, -⟩ := (mem_getNeighbors _ _ _ _ p).mp hp
  have hdims : DimsOK g := ⟨hlen, hrows⟩
  have hx2 : p.1.toNat < g.width.toNat := by omega
  have hy2 : p.2.toNat < g.height.toNat := by omega
  obtain ⟨c2, hc2⟩ := cellAt_of_dims hdims hx2 hy2
  obtain ⟨hcx, hcy⟩ := hcoords _ _ _ hc2
  refine ⟨c2, hc2, h1, h3, ?_, ?_⟩
  · rw [hcx]
    omega
  · rw [hcy]
    omega

/-- C4.  In every grid built by `createInitialGrid`, the neighbor cache
of the cell stored at `(x, y)` is exactly `getNeighbors` of its position —
the in-bounds part of the 3×3 block around it minus the center, in the
source's fixed direction order: membership is characterized by being
in-bounds, distinct from the cell, and at Chebyshev distance 1 (so no
wraparound); the list has no duplicates, never contains the cell itself,
has exactly 8 entries for interior cells and fewer than 8 for edge or
corner cells. -/
theorem claim4_neighbors_spec (w h : Int) (coords : List (Int × Int)) (g : Grid)
    (hok : createInitialGrid w h coords = Except.ok g)
    (x y : Nat) (c : Cell) (hc : cellAt g.cells x y = some c) :
    c.neighbors = getNeighbors w h (x : Int) (y : Int) ∧
    (∀ p : Int × Int, p ∈ c.neighbors ↔
      ((0 ≤ p.1 ∧ p.1 < w ∧ 0 ≤ p.2 ∧ p.2 < h) ∧ p ≠ ((x : Int), (y : Int)) ∧
        -1 ≤ p.1 - (x : Int) ∧ p.1 - (x : Int) ≤ 1 ∧
        -1 ≤ p.2 - (y : Int) ∧ p.2 - (y : Int) ≤ 1)) ∧
    c.neighbors.Nodup ∧
    ((x : Int), (y : Int)) ∉ c.neighbors ∧
    (0 < (x : Int) ∧ (x : Int) < w - 1 ∧ 0 < (y : Int) ∧ (y : Int) < h - 1 →
      c.neighbors.length = 8) ∧
    ((x : Int) = 0 ∨ (x : Int) = w - 1 ∨ (y : Int) = 0 ∨ (y : Int) = h - 1 →
      c.neighbors.length < 8) := by
  obtain ⟨hw, hh, hgen, hinv⟩ := createInitialGrid_ok hok
  obtain ⟨⟨hlen, hrows, hcoords⟩, hnb⟩ := hinv
  obtain ⟨hcx, hcy⟩ := hcoords x y c hc
  have hneq : c.neighbors = getNeighbors w h (x : Int) (y : Int) := by
    have hn := hnb x y c hc
    rw [hcx, hcy, hw, hh] at hn
    exact hn
  have hdims : DimsOK g := ⟨hlen, hrows⟩
  obtain ⟨hxb, hyb⟩ := cellAt_bounds hdims hc
  rw [hw] at hxb
  rw [hh] at hyb
  refine ⟨hneq, ?_, ?_, ?_, ?_, ?_⟩
  · intro p
    rw [hneq]
    exact mem_getNeighbors w h (x : Int) (y : Int) p
  · rw [hneq]
    exact nodup_getNeighbors w h (x : Int) (y : Int)
  · rw [hneq]
    intro hmem
    obtain ⟨-, hne, -⟩ := (mem_getNeighbors w h (x : Int) (y : Int) _).mp hmem
    exact hne rfl
  · rintro ⟨h1, h2, h3, h4⟩
    rw [hneq]
    exact length_getNeighbors_interior w h (x : Int) (y : Int) h1 h2 h3 h4
  · intro hedge
    rw [hneq]
    exact length_getNeighbors_edge w h (x : Int) (y : Int)
      (by omega) (by omega) (by omega) (by omega) hedge

/-- Witness for C4 at the 1×1 grid: its only cell is a corner cell with
an empty neighbor list. -/
theorem claim4_neighbors_spec_witness :
    deadCellA.neighbors = getNeighbors 1 1 ((0 : Nat) : Int) ((0 : Nat) : Int) ∧
    (∀ p : Int × Int, p ∈ deadCellA.neighbors ↔
      ((0 ≤ p.1 ∧ p.1 < 1 ∧ 0 ≤ p.2 ∧ p.2 < 1) ∧ p ≠ (((0 : Nat) : Int), ((0 : Nat) : Int)) ∧
        -1 ≤ p.1 - ((0 : Nat) : Int) ∧ p.1 - ((0 : Nat) : Int) ≤ 1 ∧
        -1 ≤ p.2 - ((0 : Nat) : Int) ∧ p.2 - ((0 : Nat) : Int) ≤ 1)) ∧
    deadCellA.neighbors.Nodup ∧
    (((0 : Nat) : Int), ((0 : Nat) : Int)) ∉ deadCellA.neighbors ∧
    (0 < ((0 : Nat) : Int) ∧ ((0 : Nat) : Int) < 1 - 1 ∧
      0 < ((0 : Nat) : Int) ∧ ((0 : Nat) : Int) < 1 - 1 →
      deadCellA.neighbors.length = 8) ∧
    (((0 : Nat) : Int) = 0 ∨ ((0 : Nat) : Int) = 1 - 1 ∨
      ((0 : Nat) : Int) = 0 ∨ ((0 : Nat) : Int) = 1 - 1 →
      deadCellA.neighbors.length < 8) :=
  claim4_neighbors_spec 1 1 [] oneByOne rfl 0 0 deadCellA rfl

/-- C5.  For well-shaped grids, `areGridsEqual` is true iff widths,
heights, and every cell state at matching positions agree; it is false
whenever the dimensions differ, regardless of content; and its value
depends neither on the generation counters nor on the neighbor caches. -/
theorem claim5_equals_spec (g1 g2 : Grid) (hd1 : DimsOK g1) (hd2 : DimsOK g2) :
    (areGridsEqual g1 g2 = true ↔
      (g1.width = g2.width ∧ g1.height = g2.height ∧
        ∀ x y c1 c2, cellAt g1.cells x y = some c1 → cellAt g2.cells x y = some c2 →
          c1.state = c2.state)) ∧
    (g1.width ≠ g2.width ∨ g1.height ≠ g2.height → areGridsEqual g1 g2 = false) ∧
    (∀ n m : Int, areGridsEqual { g1 with generation := n } { g2 with generation := m } =
      areGridsEqual g1 g2) ∧
    (∀ f : Cell → List (Int × Int),
      areGridsEqual (mapNeighbors f g1) (mapNeighbors f g2) = areGridsEqual g1 g2) := by
  refine ⟨?_, ?_, fun n m => rfl, fun f => areGridsEqual_mapNeighbors f g1 g2⟩
  · rw [areGridsEqual_iff]
    constructor
    · rintro ⟨hw, hh, hall⟩
      refine ⟨hw, hh, ?_⟩
      intro x y c1 c2 hc1 hc2
      obtain ⟨hxb, hyb⟩ := cellAt_bounds hd1 hc1
      have hs := hall y hyb x hxb
      rw [stateAtN_eq_state hc1, stateAtN_eq_state hc2] at hs
      exact hs
    · rintro ⟨hw, hh, hcell⟩
      refine ⟨hw, hh, ?_⟩
      intro y hy x hx
      obtain ⟨c1, hc1⟩ := cellAt_of_dims hd1 hx hy
      obtain ⟨c2, hc2⟩ := cellAt_of_dims hd2 (by rw [← hw]; exact hx) (by rw [← hh]; exact hy)
      rw [stateAtN_eq_state hc1, stateAtN_eq_state hc2]
      exact hcell x y c1 c2 hc1 hc2
  · intro hne
    unfold areGridsEqual
    rw [if_pos hne]

/-- Witness for C5 with both grids the 1×1 all-dead grid. -/
theorem claim5_equals_spec_witness :
    DimsOK oneByOne ∧
    ((areGridsEqual oneByOne oneByOne = true ↔
      (oneByOne.width = oneByOne.width ∧ oneByOne.height = oneByOne.height ∧
        ∀ x y c1 c2, cellAt oneByOne.cells x y = some c1 →
          cellAt oneByOne.cells x y = some c2 → c1.state = c2.state)) ∧
    (oneByOne.width ≠ oneByOne.width ∨ oneByOne.height ≠ oneByOne.height →
      areGridsEqual oneByOne oneByOne = false) ∧
    (∀ n m : Int, areGridsEqual { oneByOne with generation := n }
        { oneByOne with generation := m } = areGridsEqual oneByOne oneByOne) ∧
    (∀ f : Cell → List (Int × Int),
      areGridsEqual (mapNeighbors f oneByOne) (mapNeighbors f oneByOne) =
        areGridsEqual oneByOne oneByOne)) :=
  ⟨⟨rfl, by intro row hr; simp only [oneByOne, List.mem_singleton] at hr; rw [hr]; rfl⟩,
    claim5_equals_spec oneByOne oneByOne
      ⟨rfl, by intro row hr; simp only [oneByOne, List.mem_singleton] at hr; rw [hr]; rfl⟩
      ⟨rfl, by intro row hr; simp only [oneByOne, List.mem_singleton] at hr; rw [hr]; rfl⟩⟩

/-- C7.  Stepping any all-dead grid yields an all-dead grid (no
spontaneous birth); and for positive dimensions, `createInitialGrid w h []`
has generation 0, every cell dead, and is a fixed point of
`createNextGeneration` under `areGridsEqual`. -/
theorem claim7_no_spontaneous_birth (g : Grid) (w h : Int) (g0 : Grid)
    (hdead : ∀ x y c, cellAt g.cells x y = some c → c.state = CellState.dead)
    (hw : 0 < w) (hh : 0 < h)
    (hok : createInitialGrid w h [] = Except.ok g0) :
    (∀ x y c, cellAt (createNextGeneration g).cells x y = some c →
      c.state = CellState.dead) ∧
    g0.generation = 0 ∧
    (∀ x y c, cellAt g0.cells x y = some c → c.state = CellState.dead) ∧
    areGridsEqual g0 (createNextGeneration g0) = true := by
  have hg0dead := createInitialGrid_nil_dead hok
  refine ⟨step_all_dead hdead, (createInitialGrid_ok hok).2.2.1, hg0dead, ?_⟩
  rw [areGridsEqual_iff]
  refine ⟨rfl, rfl, ?_⟩
  intro y hy x hx
  rw [stateAtN_dead_of_all_dead hg0dead,
    stateAtN_dead_of_all_dead (step_all_dead hg0dead)]

/-- Witness for C7 at the 1×1 all-dead grid. -/
theorem claim7_no_spontaneous_birth_witness :
    (∀ x y c, cellAt (createNextGeneration oneByOne).cells x y = some c →
      c.state = CellState.dead) ∧
    oneByOne.generation = 0 ∧
    (∀ x y c, cellAt oneByOne.cells x y = some c → c.state = CellState.dead) ∧
    areGridsEqual oneByOne (createNextGeneration oneByOne) = true :=
  claim7_no_spontaneous_birth oneByOne 1 1 oneByOne
    (@createInitialGrid_nil_dead 1 1 oneByOne rfl) (by decide) (by decide) rfl

/-- C10.  Every grid returned by `createInitialGrid` satisfies the
shape invariant — `height` rows of `width` cells, the cell at `[y][x]`
carrying coordinates `(x, y)`, every neighbor cache equal to the freshly
recomputed adjacency of this grid (never a stale one) and referring only to
cells present in this same grid; and `createNextGeneration` preserves the
invariant, keeping `width` and `height` unchanged. -/
theorem claim10_grid_invariant (w h : Int) (coords : List (Int × Int)) (g g2 : Grid)
    (hok : createInitialGrid w h coords = Except.ok g) (hinv : GridInvariant g2) :
    GridInvariant g ∧
    (∀ x y c p, cellAt g.cells x y = some c → p ∈ c.neighbors →
      ∃ c2, cellAt g.cells p.1.toNat p.2.toNat = some c2 ∧ 0 ≤ p.1 ∧ 0 ≤ p.2 ∧
        c2.x = p.1 ∧ c2.y = p.2) ∧
    GridInvariant (createNextGeneration g2) ∧
    (∀ x y c p, cellAt (createNextGeneration g2).cells x y = some c → p ∈ c.neighbors →
      ∃ c2, cellAt (createNextGeneration g2).cells p.1.toNat p.2.toNat = some c2 ∧
        0 ≤ p.1 ∧ 0 ≤ p.2 ∧ c2.x = p.1 ∧ c2.y = p.2) ∧
    (createNextGeneration g2).width = g2.width ∧
    (createNextGeneration g2).height = g2.height := by
  have hg := (createInitialGrid_ok hok).2.2.2
  exact ⟨hg, neighbors_in_grid hg, step_invariant hinv,
    neighbors_in_grid (step_invariant hinv), rfl, rfl⟩

/-- Witness for C10 at the 1×1 all-dead grid. -/
theorem claim10_grid_invariant_witness :
    GridInvariant oneByOne ∧
    (∀ x y c p, cellAt oneByOne.cells x y = some c → p ∈ c.neighbors →
      ∃ c2, cellAt oneByOne.cells p.1.toNat p.2.toNat = some c2 ∧ 0 ≤ p.1 ∧ 0 ≤ p.2 ∧
        c2.x = p.1 ∧ c2.y = p.2) ∧
    GridInvariant (createNextGeneration oneByOne) ∧
    (∀ x y c p, cellAt (createNextGeneration oneByOne).cells x y = some c →
      p ∈ c.neighbors →
      ∃ c2, cellAt (createNextGeneration oneByOne).cells p.1.toNat p.2.toNat = some c2 ∧
        0 ≤ p.1 ∧ 0 ≤ p.2 ∧ c2.x = p.1 ∧ c2.y = p.2) ∧
    (createNextGeneration oneByOne).width = oneByOne.width ∧
    (createNextGeneration oneByOne).height = oneByOne.height :=
  claim10_grid_invariant 1 1 [] oneByOne oneByOne rfl
    (@createInitialGrid_ok 1 1 [] oneByOne rfl).2.2.2
